import Mathlib

/-!
Verification of the Electrochem-Automation repository.

The development shallowly embeds the two Python source files:

* `run_measurement_serial.py` — the serial measurement runner
  (`SerialMeasurementRunner`): value decoding with SI suffixes
  (`parse_value`), response-line parsing (`parse_data_line`), the receive
  loop with its 600-poll timeout bound (`run_script`), and the overall
  `run` flow with its connect / try-finally-disconnect structure.
* `gui_script.py` — the MethodSCRIPT encoders
  (`create_cv_methodscript`, `create_swv_methodscript`,
  `generate_cv_script`, `generate_swv_script`) and the queue scheduler
  (`execute_queue_serial`, `clear_queue`, `execute_pump_action`).

Numeric values are modelled as exact rationals (`ℚ`): Python floats are
idealised as exact decimal rationals, which is faithful for every decimal
literal and arithmetic step the claims mention.  Because the kernel cannot
reduce `Rat.add`/`Rat.mul`/`Rat.inv`, the embedding performs arithmetic
through `Rat.divInt`-based helpers (`qAdd`, `qMul`, `qDiv`, ...), each
proved equal to the standard field operation below, so that concrete
evaluations are decidable while the theorems are stated with the standard
operations.

Strings are modelled with char-list primitives mirroring the Python string
methods used by the source (`split`, `strip`, `startswith`, `endswith`,
`lower`, substring membership), because Lean's built-in `String` functions
do not reduce in the kernel.
-/

deriving instance DecidableEq for Except

/-! ## Exact-rational arithmetic helpers (kernel-reducible) -/

/-- Product of two rationals, computed through `Rat.divInt` so that the
kernel can evaluate it on concrete inputs. -/
def qMul (a b : ℚ) : ℚ := Rat.divInt (a.num * b.num) ((a.den : ℤ) * (b.den : ℤ))

/-- Sum of two rationals, computed through `Rat.divInt`. -/
def qAdd (a b : ℚ) : ℚ :=
  Rat.divInt (a.num * (b.den : ℤ) + (a.den : ℤ) * b.num) ((a.den : ℤ) * (b.den : ℤ))

/-- Inverse of a rational, computed through `Rat.divInt`. -/
def qInv (b : ℚ) : ℚ := Rat.divInt (b.den : ℤ) b.num

/-- Quotient of two rationals, computed through `Rat.divInt`. -/
def qDiv (a b : ℚ) : ℚ := qMul a (qInv b)

/-- Difference of two rationals, computed through `Rat.divInt`. -/
def qSub (a b : ℚ) : ℚ := qAdd a (-b)

/-- `10 ^ n` as a rational, in kernel-reducible form. -/
def qpowNat (n : ℕ) : ℚ := Rat.divInt ((10 : ℤ) ^ n) 1

/-- Python `int(q)` for a float value `q`: truncation toward zero
(`Int.tdiv` is T-division, matching CPython's `int()` on floats). -/
def pyTrunc (q : ℚ) : ℤ := Int.tdiv q.num (q.den : ℤ)

/-! ## Python string primitives (char-list models of the `str` methods) -/

/-- Python `s.startswith(pre)`. -/
def pyStartswith (s pre : String) : Bool := pre.data.isPrefixOf s.data

/-- Python `s.endswith(suf)`. -/
def pyEndswith (s suf : String) : Bool := suf.data.isSuffixOf s.data

/-- Lower-case an ASCII character, as Python `str.lower` does on the ASCII
range (the only characters the device protocol produces). -/
def lowerChar (c : Char) : Char :=
  if 'A' ≤ c && c ≤ 'Z' then Char.ofNat (c.toNat + 32) else c

/-- Python `s.lower()` (ASCII range). -/
def pyLower (s : String) : String := ⟨s.data.map lowerChar⟩

/-- Whitespace characters stripped by Python `str.strip()`. -/
def isSpaceChar (c : Char) : Bool :=
  c == ' ' || c == '\t' || c == '\n' || c == '\r' || c == '\x0b' || c == '\x0c'

/-- Python `s.strip()`. -/
def pyStrip (s : String) : String :=
  ⟨((s.data.dropWhile isSpaceChar).reverse.dropWhile isSpaceChar).reverse⟩

/-- Split a character list at every occurrence of `sep` (Python
`str.split(sep)` semantics: empty fields are kept, `"".split(sep) = [""]`). -/
def splitCharList (sep : Char) : List Char → List (List Char)
  | [] => [[]]
  | c :: t =>
    let r := splitCharList sep t
    if c == sep then [] :: r
    else
      match r with
      | [] => [[c]]
      | h :: t2 => (c :: h) :: t2

/-- Python `s.split(sep)` for a one-character separator. -/
def pySplit (s : String) (sep : Char) : List String :=
  (splitCharList sep s.data).map String.mk

/-- Python `s[n:]`. -/
def pyDrop (s : String) (n : ℕ) : String := ⟨s.data.drop n⟩

/-- Python `s[:-n]` for `n ≥ 1`. -/
def pyDropRight (s : String) (n : ℕ) : String := ⟨s.data.take (s.data.length - n)⟩

/-- Substring membership, Python `needle in hay`. -/
def strContains (hay needle : String) : Bool :=
  go needle.data hay.data
where
  /-- Check whether `n` occurs as an infix of `h`. -/
  go (n : List Char) : List Char → Bool
    | [] => n.isEmpty
    | c :: t => n.isPrefixOf (c :: t) || go n t

/-! ## Models of Python numeric-literal parsing (`float(str)`, `int(str)`)

`parseFloat` models CPython `float(str)` on decimal literals: optional
surrounding whitespace, an optional sign, a digit string with an optional
single point (at least one digit overall), and an optional exponent part
`e`/`E` with optional sign and at least one digit.  The value is the exact
rational denoted by the literal.  Special forms the device never produces
(`inf`, `nan`, underscore separators) are outside the model.  `parseInt`
models `int(str)` likewise (sign and digits only).  `none` models a raised
`ValueError`. -/

/-- Numeric value of a decimal digit character. -/
def digitVal : Char → ℕ
  | '0' => 0 | '1' => 1 | '2' => 2 | '3' => 3 | '4' => 4
  | '5' => 5 | '6' => 6 | '7' => 7 | '8' => 8 | '9' => 9
  | _ => 0

/-- Value of a digit string, most significant digit first. -/
def digitsToNat (ds : List Char) : ℕ := ds.foldl (fun a c => 10 * a + digitVal c) 0

/-- Consume an optional leading sign; returns (is-negative, rest). -/
def parseSign : List Char → Bool × List Char
  | '+' :: r => (false, r)
  | '-' :: r => (true, r)
  | cs => (false, cs)

/-- Parse `digits [. digits]` (at least one digit overall) into its exact
rational value and the unconsumed rest. -/
def parseMantissa (cs : List Char) : Option (ℚ × List Char) :=
  let ip := cs.takeWhile Char.isDigit
  let r1 := cs.dropWhile Char.isDigit
  match r1 with
  | '.' :: r2 =>
    let fp := r2.takeWhile Char.isDigit
    let r3 := r2.dropWhile Char.isDigit
    if ip.isEmpty && fp.isEmpty then none
    else some (qAdd (digitsToNat ip : ℚ) (qDiv (digitsToNat fp : ℚ) (qpowNat fp.length)), r3)
  | _ => if ip.isEmpty then none else some ((digitsToNat ip : ℚ), r1)

/-- Parse an optional exponent part `e|E [sign] digits`; `none` models a
malformed exponent (which makes `float()` raise). -/
def parseExponent : List Char → Option (ℤ × List Char)
  | [] => some (0, [])
  | c :: r =>
    if c == 'e' || c == 'E' then
      let sg := parseSign r
      let ds := sg.2.takeWhile Char.isDigit
      let r3 := sg.2.dropWhile Char.isDigit
      if ds.isEmpty then none
      else some ((if sg.1 then -(digitsToNat ds : ℤ) else (digitsToNat ds : ℤ)), r3)
    else some (0, c :: r)

/-- Model of Python `float(str)` on decimal literals (see the section
comment); `none` models a raised `ValueError`. -/
def parseFloat (s : String) : Option ℚ :=
  let cs := (pyStrip s).data
  let sg := parseSign cs
  match parseMantissa sg.2 with
  | none => none
  | some mr =>
    match parseExponent mr.2 with
    | none => none
    | some er =>
      if er.2.isEmpty then
        let m := if sg.1 then -mr.1 else mr.1
        some (if 0 ≤ er.1 then qMul m (qpowNat er.1.toNat) else qDiv m (qpowNat (-er.1).toNat))
      else none

/-- Model of Python `int(str)`; `none` models a raised `ValueError`. -/
def parseInt (s : String) : Option ℤ :=
  let cs := (pyStrip s).data
  let sg := parseSign cs
  let ds := sg.2.takeWhile Char.isDigit
  let r := sg.2.dropWhile Char.isDigit
  if ds.isEmpty || !r.isEmpty then none
  else some (if sg.1 then -(digitsToNat ds : ℤ) else (digitsToNat ds : ℤ))

/-! ## ValueDecoder — `SerialMeasurementRunner.parse_value`

Faithful embedding of `parse_value` (run_measurement_serial.py:182-209).
The multiplier dict is kept in Python insertion order; the suffix loop
returns at the FIRST suffix for which `text.endswith(suffix)` holds
(`List.find?`), and since `text.endswith("")` is always true the loop
always returns at `""` or earlier, so the trailing direct-conversion
fallback is dead code (still modelled).  `Except.error ()` models a raised
exception escaping `parse_value`: the only unprotected conversion is
`float(text)` in the scientific-notation branch (line 191). -/

/-- The `multipliers` dict of `parse_value`, in insertion order.  The
values are `1e-9, 1e-6, 1e-3, 1, 1e3, 1e6`. -/
def multipliers : List (String × ℚ) :=
  [("n", Rat.divInt 1 1000000000), ("u", Rat.divInt 1 1000000), ("m", Rat.divInt 1 1000),
   ("", 1), ("k", 1000), ("M", 1000000)]

/-- `SerialMeasurementRunner.parse_value`.  `Except.error ()` models an
exception propagating to the caller. -/
def parse_value (text : String) : Except Unit ℚ :=
  -- `if 'e' in text.lower(): return float(text)` — this call is NOT
  -- wrapped in try/except, so a parse failure here raises.
  if strContains (pyLower text) "e" then
    match parseFloat text with
    | some v => Except.ok v
    | none => Except.error ()
  else
    match multipliers.find? (fun sm => pyEndswith text sm.1) with
    | some sm =>
      let number := if sm.1.data.isEmpty then text else pyDropRight text sm.1.data.length
      -- `try: return float(number) * multipliers[suffix] except: return 0.0`
      match parseFloat number with
      | some v => Except.ok (qMul v sm.2)
      | none => Except.ok 0
    | none =>
      -- trailing `try: return float(text) except: return 0.0` (unreachable)
      match parseFloat text with
      | some v => Except.ok v
      | none => Except.ok 0

/-! ## DeviceSession — `parse_data_line`, the receive loop, and `run` -/

/-- A decoded data point: potential in volts, current in microamps. -/
structure Sample where
  potential : ℚ
  current : ℚ
deriving DecidableEq

/-- The field loop of `parse_data_line` (lines 164-173): accumulate the
`potential` and `current` dict entries across the `;`-separated parts.
A propagating `parse_value` exception aborts the whole line. -/
def processParts : List String → Option ℚ → Option ℚ → Except Unit (Option ℚ × Option ℚ)
  | [], pot, cur => Except.ok (pot, cur)
  | part :: rest, pot, cur =>
    if pyStartswith part "P" then
      match parse_value (pyDrop part 1) with
      | Except.error e => Except.error e
      | Except.ok v => processParts rest (some (qDiv v 1000)) cur  -- mV → V
    else if pyStartswith part "DA" || pyStartswith part "BA" then
      if pyStartswith part "DA" then
        match parse_value (pyDrop part 2) with
        | Except.error e => Except.error e
        | Except.ok v => processParts rest pot (some (qMul v 1000000))  -- A → µA
      else processParts rest pot cur  -- "BA" (current range): ignored
    else processParts rest pot cur

/-- `SerialMeasurementRunner.parse_data_line` (lines 157-180): appends at
most one sample to `data_points`; the surrounding `try/except: pass`
swallows any exception, leaving `data_points` unchanged. -/
def parse_data_line (data_points : List Sample) (line : String) : List Sample :=
  match processParts (pySplit line ';') none none with
  | Except.error _ => data_points
  | Except.ok (some p, some c) => data_points ++ [⟨p, c⟩]
  | Except.ok _ => data_points

/-- One `readline()` result in the receive loop: `empty` models both an
empty read and a `SerialTimeoutException` (the two `timeout_counter += 1`
paths), `line s` a read that decoded to `s`. -/
inductive Poll
  | empty
  | line (s : String)
deriving DecidableEq

/-- How the receive loop of `run_script` terminated. -/
inductive LoopExit
  | completed
  | aborted
  | timedOut
deriving DecidableEq

/-- The end-of-measurement markers (line 132). -/
def completionTokens : List String := ["*", "Measurement completed", "Script completed"]

/-- The receive loop of `run_script` (lines 110-146): polls are consumed
in order; when the trace is exhausted the device stays silent, so the
remaining reads are empty and the counter reaches the 600 bound.  Returns
how the loop exited together with the collected samples. -/
def receiveLoop (polls : List Poll) (counter : ℕ) (pts : List Sample) :
    LoopExit × List Sample :=
  if 600 ≤ counter then (LoopExit.timedOut, pts)
  else
    match polls with
    | [] => (LoopExit.timedOut, pts)
    | Poll.empty :: rest => receiveLoop rest (counter + 1) pts
    | Poll.line s :: rest =>
      let text := pyStrip s
      if text.data.isEmpty then receiveLoop rest counter pts
      else
        let pts1 := if pyStartswith text "P" then parse_data_line pts text else pts
        if completionTokens.contains text then (LoopExit.completed, pts1)
        else if pyStartswith text "!" && strContains (pyLower text) "abort" then
          (LoopExit.aborted, pts1)
        else receiveLoop rest 0 pts1

/-- `SerialMeasurementRunner.run_script` (lines 88-155) for a connected
session: the send phase has no observable effect in the model, and the
method returns `True` on every loop exit — completion, abort, and the
timeout path alike (lines 148-151). -/
def run_script (polls : List Poll) : Bool × LoopExit × List Sample :=
  let r := receiveLoop polls 0 []
  (true, r.1, r.2)

/-- `SerialMeasurementRunner.run` (lines 240-273).  First component: the
value `run` produces — `Except.ok code` a normal return, `Except.error ()`
an uncaught exception (the `self.save_data()` call is a `TypeError`: the
boolean attribute assigned in `__init__` shadows the method of the same
name, so it fires whenever the flag is set and samples were collected).
Second component: whether `disconnect()` ran — it is in a `finally`, so it
runs on every path out of the `try`, but not when `connect()` already
failed (line 257-259 returns before the `try`). -/
def run_measurement (connectOk saveFlag : Bool) (polls : List Poll) :
    Except Unit ℤ × Bool :=
  if connectOk then
    let r := run_script polls
    let result : Except Unit ℤ :=
      if r.1 then
        if saveFlag && !r.2.2.isEmpty then Except.error () else Except.ok 0
      else Except.ok 1
    (result, true)
  else (Except.ok 1, false)

/-- Exit status of the isolated measurement process: `main` propagates
`run`'s return through `sys.exit`, and an uncaught exception terminates
the interpreter with a nonzero status. -/
def processExitCode (r : Except Unit ℤ) : ℤ :=
  match r with
  | Except.ok c => c
  | Except.error _ => 1

/-! ## ScriptEncoder — `create_cv_methodscript` / `create_swv_methodscript`

The encoders read the form entries as raw strings and interpolate them
verbatim into the script; only `cond_time` (via `float`), `n_scans` (via
`int`), and for SWV `begin`/`end`/`amplitude` (via the range computation)
are numerically converted.  `Except.error ()` models a `ValueError` raised
by one of those conversions (caught by `generate_*_script`, which shows a
messagebox and returns `None`).  A script is modelled as its list of
lines: the Python text is the concatenation of each line plus `"\n"` (the
final `"cell_off\n\n"` contributes the trailing empty line). -/

/-- The CV form entries (`self.cv_params`), as the raw strings read by
`create_cv_methodscript` lines 365-372. -/
structure CVParams where
  begin_potential : String
  vertex1 : String
  vertex2 : String
  step_potential : String
  scan_rate : String
  n_scans : String
  cond_potential : String
  cond_time : String

/-- The SWV form entries (`self.swv_params`), lines 425-431. -/
structure SWVParams where
  begin_potential : String
  end_potential : String
  step_potential : String
  amplitude : String
  frequency : String
  cond_potential : String
  cond_time : String

/-- The CV measurement-loop line (gui_script.py:394-397): parameters
interpolated in fixed order, with the `nscans` modifier appended only when
`int(n_scans) > 1`. -/
def cvLoopLine (p : CVParams) (ns : ℤ) : String :=
  "meas_loop_cv p c " ++ p.begin_potential ++ " " ++ p.vertex1 ++ " " ++ p.vertex2
    ++ " " ++ p.step_potential ++ " " ++ p.scan_rate
    ++ (if 1 < ns then " nscans(" ++ p.n_scans ++ ")" else "")

/-- The lines of the CV script for parsed `cond_time = ct` and
`n_scans = ns` (gui_script.py:374-406). -/
def cvBody (p : CVParams) (ct : ℚ) (ns : ℤ) : List String :=
  "e" :: "var c" :: "var p" :: "set_pgstat_mode 2" :: "set_max_bandwidth 40" ::
  "set_range ba 100u" :: "set_autoranging ba 1n 100u" ::
  ((if 0 < ct then
      ["set_e " ++ p.cond_potential,
       "cell_on",
       "#autorange for " ++ p.cond_time ++ "s prior to CV",
       "meas_loop_ca p c " ++ p.cond_potential ++ " 100m " ++ p.cond_time,
       "endloop"]
    else
      ["set_e 0m", "cell_on"]) ++
   ("# E_res, I_res, E_begin, E_vtx1, E_vtx2, E_step, scan_rate" ::
    cvLoopLine p ns ::
    "\tpck_start" :: "\tpck_add p" :: "\tpck_add c" :: "\tpck_end" ::
    "endloop" :: "on_finished:" :: "cell_off" :: "" :: []))

/-- `ElectrochemGUI.create_cv_methodscript` (lines 362-408).  The only
numeric conversions are `float(cond_time)` (line 383) and `int(n_scans)`
(line 396); either failure raises, and since the script text is a local
that is never returned on that path, no partial script escapes. -/
def create_cv_methodscript (p : CVParams) : Except Unit (List String) :=
  match parseFloat p.cond_time, parseInt p.n_scans with
  | some ct, some ns => Except.ok (cvBody p ct ns)
  | _, _ => Except.error ()

/-- `ElectrochemGUI.generate_cv_script` (lines 350-360): wraps the builder
in try/except; on an exception it shows an error box and returns `None`. -/
def generate_cv_script (p : CVParams) : Option (List String) :=
  match create_cv_methodscript p with
  | Except.ok s => some s
  | Except.error _ => none

/-- The SWV measurement-loop line (gui_script.py:462). -/
def swvLoopLine (p : SWVParams) : String :=
  "meas_loop_swv p c f r " ++ p.begin_potential ++ " " ++ p.end_potential
    ++ " " ++ p.step_potential ++ " " ++ p.amplitude ++ " " ++ p.frequency

/-- The lines of the SWV script for parsed `begin = b`, `end = e`,
`amplitude = a`, `cond_time = ct` (gui_script.py:433-471).  Note:
`cell_on` is emitted unconditionally (line 454) and the conditioning hold
uses the BEGIN potential (`{begin}`, line 458), not the conditioning
potential, which is read but never used. -/
def swvBody (p : SWVParams) (b e a ct : ℚ) : List String :=
  "e" :: "var c" :: "var p" :: "var f" :: "var r" :: "var i" ::
  "store_var i 0i ja" :: "set_pgstat_chan 0" :: "set_pgstat_mode 2" ::
  "set_max_bandwidth 40" ::
  ("set_range_minmax da " ++ toString (pyTrunc (qMul (qSub (min b e) a) 1000)) ++ "m "
     ++ toString (pyTrunc (qMul (qAdd (max b e) a) 1000)) ++ "m") ::
  "set_range ba 100u" :: "set_autoranging ba 1n 100u" :: "cell_on" ::
  ((if 0 < ct then
      ["#Equilibrate at " ++ p.begin_potential ++ " and autorange for "
         ++ p.cond_time ++ "s prior to SWV",
       "meas_loop_ca p c " ++ p.begin_potential ++ " 100m " ++ p.cond_time,
       "endloop"]
    else []) ++
   ("# Measure SWV: E, I, I_fwd, I_rev, E_begin, E_end, E_step, E_amp, freq" ::
    swvLoopLine p ::
    "\tpck_start" :: "\tpck_add p" :: "\tpck_add c" :: "\tpck_add f" ::
    "\tpck_add r" :: "\tpck_end" ::
    "endloop" :: "on_finished:" :: "cell_off" :: "" :: []))

/-- `ElectrochemGUI.create_swv_methodscript` (lines 422-473).  The numeric
conversions are `float(begin)`, `float(end)`, `float(amplitude)` (lines
446-449, for the analog range computation) and `float(cond_time)` (line
456); `step`, `frequency` and `cond_potential` are never converted. -/
def create_swv_methodscript (p : SWVParams) : Except Unit (List String) :=
  match parseFloat p.begin_potential, parseFloat p.end_potential,
        parseFloat p.amplitude, parseFloat p.cond_time with
  | some b, some e, some a, some ct => Except.ok (swvBody p b e a ct)
  | _, _, _, _ => Except.error ()

/-- `ElectrochemGUI.generate_swv_script` (lines 410-420). -/
def generate_swv_script (p : SWVParams) : Option (List String) :=
  match create_swv_methodscript p with
  | Except.ok s => some s
  | Except.error _ => none

/-- Whether encoding succeeded (no exception raised). -/
def exceptOk (r : Except Unit (List String)) : Bool :=
  match r with
  | Except.ok _ => true
  | Except.error _ => false

/-- Line `i` of an encoded script (`none` on encoding failure). -/
def scriptLine (r : Except Unit (List String)) (i : ℕ) : Option String :=
  match r with
  | Except.ok s => s.get? i
  | Except.error _ => none

/-- Whether an encoded script contains a given line. -/
def scriptHasLine (r : Except Unit (List String)) (l : String) : Bool :=
  match r with
  | Except.ok s => s.contains l
  | Except.error _ => false

/-- A conditioning-hold loop line: the only `meas_loop_ca` instructions
either encoder can emit. -/
def lineIsCondLoop (l : String) : Bool := "meas_loop_ca".data.isPrefixOf l.data

/-- How many conditioning-hold loop lines an encoded script contains. -/
def scriptCondLoops (r : Except Unit (List String)) : ℕ :=
  match r with
  | Except.ok s => (s.filter lineIsCondLoop).length
  | Except.error _ => 0

/-- The CV form defaults (gui_script.py:126-135). -/
def cvDefaults : CVParams := ⟨"0", "-0.5", "0.5", "0.01", "0.1", "1", "0", "0"⟩

/-- The SWV form defaults (gui_script.py:161-169). -/
def swvDefaults : SWVParams := ⟨"-0.5", "0.5", "0.01", "0.02", "15", "0", "0"⟩

/-! ## QueueScheduler — `execute_queue_serial`, `clear_queue` -/

/-- Queue-item status strings. -/
inductive Status
  | pending
  | running
  | completed
  | failed
  | skipped
deriving DecidableEq

/-- Whether a status is terminal. -/
def Status.isTerminal : Status → Bool
  | Status.completed => true
  | Status.failed => true
  | Status.skipped => true
  | _ => false

/-- What dispatching a queue item will observe.  A measurement item
records the exit status its isolated subprocess will return (an exception
while spawning behaves like a nonzero status: both end in `failed`).  A
pump item records its action string and whether the capability call will
raise. -/
inductive JobSpec
  | measurement (exitCode : ℤ)
  | pump (action : String) (raises : Bool)
deriving DecidableEq

/-- A queue item: its dispatch behaviour and its status field. -/
structure QueueItem where
  job : JobSpec
  status : Status
deriving DecidableEq

/-- The terminal status an item receives when dispatched
(gui_script.py:599-608 for measurements: `return_code == 0` ↦ completed,
otherwise failed; `execute_pump_action`, lines 829-863, for pump items: no
pump bound ↦ skipped, a raising call ↦ failed, otherwise completed —
whatever the action string, including unknown ones). -/
def dispatchStatus (pumpConnected : Bool) : JobSpec → Status
  | JobSpec.measurement code => if code = 0 then Status.completed else Status.failed
  | JobSpec.pump _ raises =>
    if !pumpConnected then Status.skipped
    else if raises then Status.failed else Status.completed

/-- `ElectrochemGUI.execute_queue_serial` (lines 556-617): while the queue
is non-empty and the running flag is set, the head item is marked running,
dispatched, given its terminal status, and popped before the next item is
taken.  Returns the processed items (with their final statuses, in order)
and the remaining active queue.  The running flag is modelled as constant
for the duration of the loop (a concurrent `stop_queue` is only observed
between items and leaves a suffix of untouched items, which the `false`
branch represents). -/
def execute_queue_serial (pumpConnected isRunning : Bool) :
    List QueueItem → List QueueItem × List QueueItem
  | [] => ([], [])
  | item :: rest =>
    if isRunning then
      let fin : QueueItem := ⟨item.job, dispatchStatus pumpConnected item.job⟩
      let r := execute_queue_serial pumpConnected isRunning rest
      (fin :: r.1, r.2)
    else ([], item :: rest)

/-- `ElectrochemGUI.clear_queue` (lines 624-632): while running it shows a
warning and returns without touching the queue; otherwise it replaces the
queue with `[]`.  Second component: whether the queue was cleared. -/
def clear_queue (isRunning : Bool) (queue : List QueueItem) :
    List QueueItem × Bool :=
  if isRunning then (queue, false) else ([], true)

/-! ## Bridging lemmas: the kernel-reducible arithmetic helpers agree with
the standard field operations on `ℚ`. -/

theorem qMul_eq (a b : ℚ) : qMul a b = a * b := by
  unfold qMul
  rw [Rat.divInt_eq_div]
  push_cast
  rw [← div_mul_div_comm, Rat.num_div_den, Rat.num_div_den]

theorem qAdd_eq (a b : ℚ) : qAdd a b = a + b := by
  unfold qAdd
  rw [Rat.divInt_eq_div]
  push_cast
  have ha : ((a.den : ℚ)) ≠ 0 := by exact_mod_cast a.den_nz
  have hb : ((b.den : ℚ)) ≠ 0 := by exact_mod_cast b.den_nz
  rw [← div_add_div _ _ ha hb, Rat.num_div_den, Rat.num_div_den]

theorem qInv_eq (b : ℚ) : qInv b = b⁻¹ := by
  unfold qInv
  rw [Rat.inv_def']

theorem qDiv_eq (a b : ℚ) : qDiv a b = a / b := by
  unfold qDiv
  rw [qMul_eq, qInv_eq, div_eq_mul_inv]

theorem qSub_eq (a b : ℚ) : qSub a b = a - b := by
  unfold qSub
  rw [qAdd_eq, ← sub_eq_add_neg]

theorem qpowNat_eq (n : ℕ) : qpowNat n = (10 : ℚ) ^ n := by
  unfold qpowNat
  rw [Rat.divInt_eq_div]
  push_cast
  rw [div_one]

/-! ## Helper lemmas -/

/-- Every dispatched item receives a terminal status (completed, failed,
or skipped). -/
theorem dispatchStatus_isTerminal (conn : Bool) (j : JobSpec) :
    (dispatchStatus conn j).isTerminal = true := by
  cases j with
  | measurement c =>
    by_cases h : c = 0 <;> simp [dispatchStatus, h, Status.isTerminal]
  | pump a r =>
    cases conn <;> cases r <;> simp [dispatchStatus, Status.isTerminal]

/-- Once the timeout counter has reached the 600 bound, the receive loop
exits with `timedOut`, whatever remains in the poll trace. -/
theorem receiveLoop_at_bound (polls : List Poll) (c : ℕ) (pts : List Sample)
    (h : 600 ≤ c) : receiveLoop polls c pts = (LoopExit.timedOut, pts) := by
  unfold receiveLoop
  rw [if_pos h]

/-- Consuming `n` consecutive empty polls adds `n` to the timeout counter
and nothing else. -/
theorem receiveLoop_skip_empties :
    ∀ (n c : ℕ) (pts : List Sample) (polls : List Poll), c + n ≤ 600 →
      receiveLoop (List.replicate n Poll.empty ++ polls) c pts
        = receiveLoop polls (c + n) pts := by
  intro n
  induction n with
  | zero => intro c pts polls h; simp
  | succ k ih =>
    intro c pts polls h
    have hc : ¬ 600 ≤ c := by omega
    rw [List.replicate_succ, List.cons_append]
    rw [receiveLoop, if_neg hc]
    rw [ih (c + 1) pts polls (by omega)]
    have hcc : c + 1 + k = c + (k + 1) := by omega
    rw [hcc]

/-! ## Claims -/

/-- Claim C1.  The suffix dict lists `k ↦ 1e3` and `M ↦ 1e6`, but the
suffix loop checks candidates in dict insertion order `n, u, m, "", k, M`
and `text.endswith("")` is always true, so the empty suffix shadows `k`
and `M`: `decode("100u") = 1e-4` holds, but `decode("100k")` is `0.0`
(not `1e5`) and `decode("2M")` is `0.0` (not `2e6`) — `float("100k")`
fails and the handler returns `0.0`. -/
theorem parse_value_suffix_shadowing :
    parse_value "100u" = Except.ok (1 / 10000)
    ∧ parse_value "100k" = Except.ok 0 ∧ parse_value "100k" ≠ Except.ok 100000
    ∧ parse_value "2M" = Except.ok 0 ∧ parse_value "2M" ≠ Except.ok 2000000 := by
  refine ⟨?_, by decide, by decide, by decide, by decide⟩
  have h : parse_value "100u" = Except.ok (Rat.divInt 1 10000) := by decide
  rw [h, Rat.divInt_eq_div]
  norm_num

/-- Claim C4.  `decode("garbage")` does not return `0.0`: `"garbage"`
contains the letter `e`, so `parse_value` takes the scientific-notation
branch and calls `float(text)` outside any `try`, raising `ValueError` to
its caller instead. -/
theorem parse_value_garbage_raises :
    parse_value "garbage" = Except.error ()
    ∧ parse_value "garbage" ≠ Except.ok 0 := by
  exact ⟨by decide, by decide⟩

/-- Claim C2.  The line `"P-500m;DA-2.345e-6;BA100u"` yields exactly one
sample with current `-2.345` µA, but its potential is `-0.0005`, not the
claimed `-0.5`: `parse_value("-500m")` already applies the SI factor
(giving `-0.5`), and `parse_data_line` divides by 1000 again. -/
theorem parse_data_line_double_conversion :
    parse_data_line [] "P-500m;DA-2.345e-6;BA100u"
      = [⟨-(1 : ℚ) / 2000, -(2345 : ℚ) / 1000⟩]
    ∧ parse_data_line [] "P-500m;DA-2.345e-6;BA100u"
      ≠ [⟨-(1 : ℚ) / 2, -(2345 : ℚ) / 1000⟩] := by
  have h : parse_data_line [] "P-500m;DA-2.345e-6;BA100u"
      = [⟨Rat.divInt (-1) 2000, Rat.divInt (-2345) 1000⟩] := by decide
  constructor
  · rw [h]
    norm_num [Rat.divInt_eq_div, Sample.mk.injEq]
  · rw [h]
    norm_num [Rat.divInt_eq_div, Sample.mk.injEq]

/-- Claim C3.  A failing measurement followed by a succeeding pump
dispense ends with statuses `failed` and `completed`, the active queue
empty; and in general every dispatched item is removed from the queue and
carries a terminal status, whatever its outcome. -/
theorem execute_queue_failure_isolation :
    (∀ c : ℤ, c ≠ 0 →
      execute_queue_serial true true
          [⟨JobSpec.measurement c, Status.pending⟩,
           ⟨JobSpec.pump "dispense" false, Status.pending⟩]
        = ([⟨JobSpec.measurement c, Status.failed⟩,
            ⟨JobSpec.pump "dispense" false, Status.completed⟩], []))
    ∧ ∀ (conn : Bool) (q : List QueueItem),
        (execute_queue_serial conn true q).2 = []
        ∧ ∀ i ∈ (execute_queue_serial conn true q).1, i.status.isTerminal = true := by
  constructor
  · intro c hc
    simp [execute_queue_serial, dispatchStatus, hc]
  · intro conn q
    induction q with
    | nil => simp [execute_queue_serial]
    | cons item rest ih =>
      refine ⟨by simp [execute_queue_serial, ih.1], ?_⟩
      intro i hi
      rw [execute_queue_serial] at hi
      simp at hi
      rcases hi with h | h
      · rw [h]
        exact dispatchStatus_isTerminal conn item.job
      · exact ih.2 i h

/-- Witness for C3 at `c = 1`. -/
theorem execute_queue_failure_isolation_witness :
    ((1 : ℤ) ≠ 0
      ∧ execute_queue_serial true true
          [⟨JobSpec.measurement 1, Status.pending⟩,
           ⟨JobSpec.pump "dispense" false, Status.pending⟩]
        = ([⟨JobSpec.measurement 1, Status.failed⟩,
            ⟨JobSpec.pump "dispense" false, Status.completed⟩], []))
    ∧ (⟨JobSpec.measurement 1, Status.failed⟩ : QueueItem)
        ∈ (execute_queue_serial true true [⟨JobSpec.measurement 1, Status.pending⟩]).1
    ∧ (⟨JobSpec.measurement 1, Status.failed⟩ : QueueItem).status.isTerminal = true := by
  refine ⟨⟨by decide, execute_queue_failure_isolation.1 1 (by decide)⟩, by decide, ?_⟩
  exact (execute_queue_failure_isolation.2 true
    [⟨JobSpec.measurement 1, Status.pending⟩]).2 _ (by decide)

/-- Claim C8.  A session in which no response line ever arrives exits the
receive loop at the fixed bound of 600 consecutive empty polls, in the
timed-out state with zero collected samples; and for a connected session
`disconnect()` runs on every path out of the receive phase (it sits in a
`finally`). -/
theorem timeout_and_disconnect :
    (∀ rest : List Poll,
       receiveLoop (List.replicate 600 Poll.empty ++ rest) 0 []
         = (LoopExit.timedOut, []))
    ∧ ∀ (polls : List Poll) (saveFlag : Bool),
        (run_measurement true saveFlag polls).2 = true := by
  constructor
  · intro rest
    rw [receiveLoop_skip_empties 600 0 [] rest (by omega)]
    exact receiveLoop_at_bound rest (0 + 600) [] (by omega)
  · intro polls saveFlag
    rfl

set_option maxRecDepth 4000 in
/-- Counterexample for C10: a session that collects one sample (from the
line `"P1;DA2"`) and then exhausts the 600-poll timeout bound still has
`run_script` return `True`, but the process exits with status 1, not 0:
`run` reaches `self.save_data()` with a non-empty sample list, the
boolean attribute assigned in `__init__` shadows the method of the same
name, the call raises `TypeError`, and the scheduler marks such an item
`failed`. -/
theorem timeout_with_samples_counterexample :
    (receiveLoop (Poll.line "P1;DA2" :: List.replicate 600 Poll.empty) 0 []).1
      = LoopExit.timedOut
    ∧ (receiveLoop (Poll.line "P1;DA2" :: List.replicate 600 Poll.empty) 0 []).2 ≠ []
    ∧ (run_script (Poll.line "P1;DA2" :: List.replicate 600 Poll.empty)).1 = true
    ∧ processExitCode
        (run_measurement true true
          (Poll.line "P1;DA2" :: List.replicate 600 Poll.empty)).1 = 1
    ∧ execute_queue_serial true true [⟨JobSpec.measurement 1, Status.pending⟩]
        = ([⟨JobSpec.measurement 1, Status.failed⟩], []) := by
  refine ⟨by decide, by decide, by decide, by decide, by decide⟩

/-- Claim C10 (amended).  On every timeout exit `run_script` still
returns `True`.  When the session collected no samples (the device was
silent throughout), `run` returns exit status 0 and the scheduler marks
the item `completed`.  But when at least one sample was collected before
the silence, `run` raises `TypeError` at `self.save_data()` (the boolean
attribute set in `__init__` shadows the method), the process exits with a
nonzero status, and the scheduler marks the item `failed`. -/
theorem timeout_exit_semantics :
    (∀ polls : List Poll, (run_script polls).1 = true)
    ∧ (∀ (rest : List Poll) (conn : Bool),
        (receiveLoop (List.replicate 600 Poll.empty ++ rest) 0 []).1 = LoopExit.timedOut
        ∧ run_script (List.replicate 600 Poll.empty ++ rest)
            = (true, LoopExit.timedOut, [])
        ∧ run_measurement true true (List.replicate 600 Poll.empty ++ rest)
            = (Except.ok 0, true)
        ∧ processExitCode
            (run_measurement true true (List.replicate 600 Poll.empty ++ rest)).1 = 0
        ∧ execute_queue_serial conn true [⟨JobSpec.measurement 0, Status.pending⟩]
            = ([⟨JobSpec.measurement 0, Status.completed⟩], []))
    ∧ (∀ polls : List Poll, (receiveLoop polls 0 []).2 ≠ [] →
        processExitCode (run_measurement true true polls).1 = 1)
    ∧ (∀ conn : Bool,
        execute_queue_serial conn true [⟨JobSpec.measurement 1, Status.pending⟩]
          = ([⟨JobSpec.measurement 1, Status.failed⟩], [])) := by
  refine ⟨fun polls => rfl, ?_, ?_, ?_⟩
  · intro rest conn
    have h : receiveLoop (List.replicate 600 Poll.empty ++ rest) 0 []
        = (LoopExit.timedOut, []) := by
      rw [receiveLoop_skip_empties 600 0 [] rest (by omega)]
      exact receiveLoop_at_bound rest (0 + 600) [] (by omega)
    have hrs : run_script (List.replicate 600 Poll.empty ++ rest)
        = (true, LoopExit.timedOut, []) := by
      unfold run_script
      rw [h]
    refine ⟨by rw [h], hrs, ?_, ?_, by simp [execute_queue_serial, dispatchStatus]⟩
    · unfold run_measurement
      rw [hrs]
      decide
    · unfold run_measurement
      rw [hrs]
      decide
  · intro polls hne
    rcases hrl : receiveLoop polls 0 [] with ⟨ex, pts⟩
    rw [hrl] at hne
    cases pts with
    | nil => exact absurd rfl hne
    | cons a t =>
      unfold run_measurement run_script
      rw [hrl]
      rfl
  · intro conn
    simp [execute_queue_serial, dispatchStatus]

set_option maxRecDepth 4000 in
/-- Witness for C10: the with-samples branch at the concrete trace of the
counterexample input shape. -/
theorem timeout_exit_semantics_witness :
    (receiveLoop (Poll.line "P1;DA2" :: List.replicate 600 Poll.empty) 0 []).2 ≠ []
    ∧ processExitCode
        (run_measurement true true
          (Poll.line "P1;DA2" :: List.replicate 600 Poll.empty)).1 = 1 := by
  refine ⟨by decide, ?_⟩
  exact timeout_exit_semantics.2.2.1 _ (by decide)

/-- Claim C9.  `clear_queue` invoked while the running flag is set is
rejected (a warning, no clearing) and leaves the queue list unmodified. -/
theorem clear_queue_while_running :
    ∀ q : List QueueItem, clear_queue true q = (q, false) := by
  intro q
  rfl

/-- Claim C6.  For every SWV parameter set whose converted fields parse,
the emitted analog-range line carries
`[min(begin,end) − amplitude, max(begin,end) + amplitude]` converted to
millivolt integers by truncation toward zero; at the form defaults
(`begin = -0.5`, `end = 0.5`, `amplitude = 0.02`) the bounds are `-520`
and `520` mV.  The last two conjuncts exhibit the truncation (toward
zero, not rounding) on `∓520.7`. -/
theorem swv_range_line_bounds :
    (∀ (p : SWVParams) (b e a ct : ℚ),
       parseFloat p.begin_potential = some b → parseFloat p.end_potential = some e →
       parseFloat p.amplitude = some a → parseFloat p.cond_time = some ct →
       scriptLine (create_swv_methodscript p) 10
         = some ("set_range_minmax da " ++ toString (pyTrunc ((min b e - a) * 1000))
             ++ "m " ++ toString (pyTrunc ((max b e + a) * 1000)) ++ "m"))
    ∧ scriptLine (create_swv_methodscript swvDefaults) 10
        = some "set_range_minmax da -520m 520m"
    ∧ pyTrunc (Rat.divInt (-5207) 10) = -520
    ∧ pyTrunc (Rat.divInt 5207 10) = 520 := by
  refine ⟨?_, by decide, by decide, by decide⟩
  intro p b e a ct hb he ha hct
  have hok : create_swv_methodscript p = Except.ok (swvBody p b e a ct) := by
    unfold create_swv_methodscript
    rw [hb, he, ha, hct]
  rw [hok]
  have hline : scriptLine (Except.ok (swvBody p b e a ct)) 10
      = some ("set_range_minmax da " ++ toString (pyTrunc (qMul (qSub (min b e) a) 1000))
          ++ "m " ++ toString (pyTrunc (qMul (qAdd (max b e) a) 1000)) ++ "m") := rfl
  rw [hline]
  simp only [qMul_eq, qSub_eq, qAdd_eq]

/-- Witness for C6 at the SWV form defaults. -/
theorem swv_range_line_bounds_witness :
    (parseFloat "-0.5" = some (Rat.divInt (-1) 2)
      ∧ parseFloat "0.5" = some (Rat.divInt 1 2)
      ∧ parseFloat "0.02" = some (Rat.divInt 1 50)
      ∧ parseFloat "0" = some 0)
    ∧ scriptLine (create_swv_methodscript swvDefaults) 10
        = some ("set_range_minmax da "
            ++ toString (pyTrunc ((min (Rat.divInt (-1) 2) (Rat.divInt 1 2) - Rat.divInt 1 50) * 1000))
            ++ "m "
            ++ toString (pyTrunc ((max (Rat.divInt (-1) 2) (Rat.divInt 1 2) + Rat.divInt 1 50) * 1000))
            ++ "m") := by
  refine ⟨⟨by decide, by decide, by decide, by decide⟩, ?_⟩
  exact swv_range_line_bounds.1 swvDefaults (Rat.divInt (-1) 2) (Rat.divInt 1 2)
    (Rat.divInt 1 50) 0 (by decide) (by decide) (by decide) (by decide)

/-- Claim C7 (amended).  Encoding fails exactly when one of the fields
the encoders actually convert fails to parse — CV: conditioning time
(`float`) and scan count (`int`); SWV: begin, end, amplitude and
conditioning time (`float`) — and on failure the generator returns `None`
(no partial script).  All other fields are interpolated verbatim without
validation. -/
theorem encoder_validation :
    (∀ p : CVParams,
       exceptOk (create_cv_methodscript p)
         = ((parseFloat p.cond_time).isSome && (parseInt p.n_scans).isSome))
    ∧ (∀ p : SWVParams,
       exceptOk (create_swv_methodscript p)
         = ((parseFloat p.begin_potential).isSome && (parseFloat p.end_potential).isSome
             && (parseFloat p.amplitude).isSome && (parseFloat p.cond_time).isSome))
    ∧ (∀ p : CVParams, (generate_cv_script p).isSome = exceptOk (create_cv_methodscript p))
    ∧ (∀ p : SWVParams, (generate_swv_script p).isSome = exceptOk (create_swv_methodscript p)) := by
  refine ⟨?_, ?_, ?_, ?_⟩
  · intro p
    cases h1 : parseFloat p.cond_time <;> cases h2 : parseInt p.n_scans <;>
      simp [create_cv_methodscript, exceptOk, h1, h2]
  · intro p
    cases h1 : parseFloat p.begin_potential <;> cases h2 : parseFloat p.end_potential <;>
      cases h3 : parseFloat p.amplitude <;> cases h4 : parseFloat p.cond_time <;>
      simp [create_swv_methodscript, exceptOk, h1, h2, h3, h4]
  · intro p
    cases h : create_cv_methodscript p <;> simp [generate_cv_script, exceptOk, h]
  · intro p
    cases h : create_swv_methodscript p <;> simp [generate_swv_script, exceptOk, h]

/-- Counterexample for C7: a malformed step potential (`"abc"`) does NOT
fail CV encoding — the script is produced with the garbage interpolated
into the measurement loop line. -/
theorem cv_unvalidated_field_counterexample :
    exceptOk (create_cv_methodscript ⟨"0", "-0.5", "0.5", "abc", "0.1", "1", "0", "0"⟩) = true
    ∧ scriptHasLine (create_cv_methodscript ⟨"0", "-0.5", "0.5", "abc", "0.1", "1", "0", "0"⟩)
        "meas_loop_cv p c 0 -0.5 0.5 abc 0.1" = true
    ∧ parseFloat "abc" = none := by
  exact ⟨by decide, by decide, by decide⟩

/-- Counterexample for C5: an SWV set with conditioning time 5 s and
conditioning potential `0.3` produces exactly one conditioning-hold loop,
but it holds at the BEGIN potential (`-0.5`), not at the conditioning
potential. -/
theorem swv_cond_potential_counterexample :
    scriptCondLoops (create_swv_methodscript
        ⟨"-0.5", "0.5", "0.01", "0.02", "15", "0.3", "5"⟩) = 1
    ∧ scriptHasLine (create_swv_methodscript
        ⟨"-0.5", "0.5", "0.01", "0.02", "15", "0.3", "5"⟩)
        "meas_loop_ca p c -0.5 100m 5" = true
    ∧ scriptHasLine (create_swv_methodscript
        ⟨"-0.5", "0.5", "0.01", "0.02", "15", "0.3", "5"⟩)
        "meas_loop_ca p c 0.3 100m 5" = false := by
  exact ⟨by decide, by decide, by decide⟩

/-- Claim C5 (amended).  CV: with conditioning time > 0 the script holds
exactly one conditioning-hold loop, at the conditioning potential, before
the measurement loop (line 10 vs line 13); otherwise no conditioning loop
and a bare cell-on at zero potential (`set_e 0m`, `cell_on`).  SWV:
`cell_on` is emitted unconditionally (line 13); with conditioning time > 0
there is exactly one conditioning-hold loop, held at the BEGIN potential
(the conditioning-potential field is ignored), before the measurement
loop (line 15 vs line 18); otherwise no conditioning loop and no
`set_e 0` — only the unconditional `cell_on`. -/
theorem conditioning_emission :
    (∀ (p : CVParams) (ct : ℚ) (ns : ℤ),
       parseFloat p.cond_time = some ct → parseInt p.n_scans = some ns →
       (0 < ct →
          scriptCondLoops (create_cv_methodscript p) = 1
          ∧ scriptLine (create_cv_methodscript p) 10
              = some ("meas_loop_ca p c " ++ p.cond_potential ++ " 100m " ++ p.cond_time)
          ∧ scriptLine (create_cv_methodscript p) 13 = some (cvLoopLine p ns))
       ∧ (¬ 0 < ct →
          scriptCondLoops (create_cv_methodscript p) = 0
          ∧ scriptLine (create_cv_methodscript p) 7 = some "set_e 0m"
          ∧ scriptLine (create_cv_methodscript p) 8 = some "cell_on"
          ∧ scriptLine (create_cv_methodscript p) 10 = some (cvLoopLine p ns)))
    ∧ (∀ (p : SWVParams) (b e a ct : ℚ),
       parseFloat p.begin_potential = some b → parseFloat p.end_potential = some e →
       parseFloat p.amplitude = some a → parseFloat p.cond_time = some ct →
       scriptLine (create_swv_methodscript p) 13 = some "cell_on"
       ∧ (0 < ct →
          scriptCondLoops (create_swv_methodscript p) = 1
          ∧ scriptLine (create_swv_methodscript p) 15
              = some ("meas_loop_ca p c " ++ p.begin_potential ++ " 100m " ++ p.cond_time)
          ∧ scriptLine (create_swv_methodscript p) 18 = some (swvLoopLine p))
       ∧ (¬ 0 < ct →
          scriptCondLoops (create_swv_methodscript p) = 0
          ∧ scriptLine (create_swv_methodscript p) 15 = some (swvLoopLine p))) := by
  constructor
  · intro p ct ns hct hns
    have hok : create_cv_methodscript p = Except.ok (cvBody p ct ns) := by
      unfold create_cv_methodscript
      rw [hct, hns]
    constructor
    · intro h0
      refine ⟨?_, ?_, ?_⟩
      · rw [hok]
        show (List.filter lineIsCondLoop (cvBody p ct ns)).length = 1
        unfold cvBody cvLoopLine
        rw [if_pos h0]
        generalize (if 1 < ns then " nscans(" ++ p.n_scans ++ ")" else "") = sfx
        obtain ⟨f1, f2, f3, f4, f5, f6, f7, f8⟩ := p
        obtain ⟨l1⟩ := f1
        obtain ⟨l2⟩ := f2
        obtain ⟨l3⟩ := f3
        obtain ⟨l4⟩ := f4
        obtain ⟨l5⟩ := f5
        obtain ⟨l7⟩ := f7
        obtain ⟨l8⟩ := f8
        obtain ⟨ls⟩ := sfx
        rfl
      · rw [hok]
        show (cvBody p ct ns).get? 10 = _
        unfold cvBody
        rw [if_pos h0]
        rfl
      · rw [hok]
        show (cvBody p ct ns).get? 13 = _
        unfold cvBody
        rw [if_pos h0]
        rfl
    · intro h0
      refine ⟨?_, ?_, ?_, ?_⟩
      · rw [hok]
        show (List.filter lineIsCondLoop (cvBody p ct ns)).length = 0
        unfold cvBody cvLoopLine
        rw [if_neg h0]
        generalize (if 1 < ns then " nscans(" ++ p.n_scans ++ ")" else "") = sfx
        obtain ⟨f1, f2, f3, f4, f5, f6, f7, f8⟩ := p
        obtain ⟨l1⟩ := f1
        obtain ⟨l2⟩ := f2
        obtain ⟨l3⟩ := f3
        obtain ⟨l4⟩ := f4
        obtain ⟨l5⟩ := f5
        obtain ⟨l7⟩ := f7
        obtain ⟨l8⟩ := f8
        obtain ⟨ls⟩ := sfx
        rfl
      · rw [hok]
        show (cvBody p ct ns).get? 7 = _
        unfold cvBody
        rw [if_neg h0]
        rfl
      · rw [hok]
        show (cvBody p ct ns).get? 8 = _
        unfold cvBody
        rw [if_neg h0]
        rfl
      · rw [hok]
        show (cvBody p ct ns).get? 10 = _
        unfold cvBody
        rw [if_neg h0]
        rfl
  · intro p b e a ct hb he ha hct
    have hok : create_swv_methodscript p = Except.ok (swvBody p b e a ct) := by
      unfold create_swv_methodscript
      rw [hb, he, ha, hct]
    refine ⟨by rw [hok]; rfl, ?_, ?_⟩
    · intro h0
      refine ⟨?_, ?_, ?_⟩
      · rw [hok]
        show (List.filter lineIsCondLoop (swvBody p b e a ct)).length = 1
        unfold swvBody swvLoopLine
        rw [if_pos h0]
        generalize toString (pyTrunc (qMul (qSub (min b e) a) 1000)) = t1
        generalize toString (pyTrunc (qMul (qAdd (max b e) a) 1000)) = t2
        obtain ⟨g1, g2, g3, g4, g5, g6, g7⟩ := p
        obtain ⟨m1⟩ := g1
        obtain ⟨m2⟩ := g2
        obtain ⟨m3⟩ := g3
        obtain ⟨m4⟩ := g4
        obtain ⟨m5⟩ := g5
        obtain ⟨m7⟩ := g7
        obtain ⟨n1⟩ := t1
        obtain ⟨n2⟩ := t2
        rfl
      · rw [hok]
        show (swvBody p b e a ct).get? 15 = _
        unfold swvBody
        rw [if_pos h0]
        rfl
      · rw [hok]
        show (swvBody p b e a ct).get? 18 = _
        unfold swvBody
        rw [if_pos h0]
        rfl
    · intro h0
      refine ⟨?_, ?_⟩
      · rw [hok]
        show (List.filter lineIsCondLoop (swvBody p b e a ct)).length = 0
        unfold swvBody swvLoopLine
        rw [if_neg h0]
        generalize toString (pyTrunc (qMul (qSub (min b e) a) 1000)) = t1
        generalize toString (pyTrunc (qMul (qAdd (max b e) a) 1000)) = t2
        obtain ⟨g1, g2, g3, g4, g5, g6, g7⟩ := p
        obtain ⟨m1⟩ := g1
        obtain ⟨m2⟩ := g2
        obtain ⟨m3⟩ := g3
        obtain ⟨m4⟩ := g4
        obtain ⟨m5⟩ := g5
        obtain ⟨m7⟩ := g7
        obtain ⟨n1⟩ := t1
        obtain ⟨n2⟩ := t2
        rfl
      · rw [hok]
        show (swvBody p b e a ct).get? 15 = _
        unfold swvBody
        rw [if_neg h0]
        rfl

/-- Witness for C5: the CV branch at a concrete parameter set with
conditioning time 5 s. -/
theorem conditioning_emission_witness :
    (parseFloat "5" = some (5 : ℚ) ∧ parseInt "1" = some 1 ∧ (0 : ℚ) < 5)
    ∧ scriptCondLoops (create_cv_methodscript
        ⟨"0", "-0.5", "0.5", "0.01", "0.1", "1", "0.2", "5"⟩) = 1 := by
  refine ⟨⟨by decide, by decide, by decide⟩, ?_⟩
  exact ((conditioning_emission.1 ⟨"0", "-0.5", "0.5", "0.01", "0.1", "1", "0.2", "5"⟩
    5 1 (by decide) (by decide)).1 (by decide)).1
